import Mathlib

/-!
Shallow embedding of the GuardDuty enablement handler
(src/security/guardduty/index.py) and proofs about it.

The module is a one-shot provisioning handler.  Every boundary call to the
cloud provider is modelled by a field of an environment record `Env` that
fixes the outcome the provider would return, and every modelled function
returns, besides its value, the list of boundary calls it made (`Event`).
Python exceptions are modelled with `Except`: an `Except.error` result is an
exception escaping the modelled function.
-/

/-- Python str.replace semantics on character lists: leftmost,
non-overlapping, replace all occurrences.  The fuel argument bounds the
number of scanning steps; `pyReplaceL` instantiates it with the length of
the scanned list, which always suffices for a non-empty pattern. -/
def replaceFuel (pat rep : List Char) : Nat → List Char → List Char
  | 0, s => s
  | n + 1, s =>
    if pat ≠ [] ∧ pat.isPrefixOf s then
      rep ++ replaceFuel pat rep n (s.drop pat.length)
    else
      match s with
      | [] => []
      | c :: rest => c :: replaceFuel pat rep n rest

/-- Python str.replace on character lists. -/
def pyReplaceL (s pat rep : List Char) : List Char :=
  replaceFuel pat rep s.length s

/-- Python str.replace on strings (models trail_bucket_name.replace in
create_s3_destination). -/
def pyReplace (s pat rep : String) : String :=
  String.mk (pyReplaceL s.data pat.data rep.data)

/-- Helper for `pySplitChar`: accumulates the current segment (reversed). -/
def splitCharAux (c : Char) : List Char → List Char → List (List Char)
  | [], acc => [acc.reverse]
  | x :: xs, acc =>
    if x = c then acc.reverse :: splitCharAux c xs []
    else splitCharAux c xs (x :: acc)

/-- Python str.split with a one-character separator (models
trail_bucket_name.split in create_s3_destination). -/
def pySplitChar (s : String) (c : Char) : List String :=
  (splitCharAux c s.data []).map String.mk

/-- Python str.startswith (models bucket_region.startswith in
create_s3_destination). -/
def pyStartsWith (s pre : String) : Bool :=
  pre.data.isPrefixOf s.data

/-- An organization account as returned by organizations list_accounts:
an Id and an Email. -/
structure Account where
  id : String
  email : String
deriving DecidableEq, Repr

/-- One entry of the member roster built by enable_gd_member:
a dict with AccountId and Email. -/
structure AccountDetail where
  accountId : String
  email : String
deriving DecidableEq, Repr

/-- The publishing destination properties returned by
create_s3_destination: DestinationArn and KmsKeyArn. -/
structure DestProps where
  destinationArn : String
  kmsKeyArn : String
deriving DecidableEq, Repr

/-- The trail fields read from describe_trails: S3BucketName and
HomeRegion. -/
structure Trail where
  s3BucketName : String
  homeRegion : String
deriving DecidableEq, Repr

/-- One element appended to the local failed_accounts list in
enable_gd_member.  Only the UnprocessedAccounts list returned by
create_members ever lands in the list: the except ClientError clause
tries to build a dict keyed by the account dict itself, which raises
before anything is appended. -/
inductive FailedEntry where
  | unprocessed (accountIds : List String)
deriving DecidableEq, Repr

/-- The process-lifetime failed_members dict: insertion-ordered map from
string keys to failed_accounts lists. -/
abbrev FMap := List (String × List FailedEntry)

/-- Python dict.update with a single key: overwrite the binding in place
when the key exists, append it otherwise. -/
def fmapUpdate (m : FMap) (k : String) (v : List FailedEntry) : FMap :=
  if m.any (fun p => p.1 = k) then
    m.map (fun p => if p.1 = k then (k, v) else p)
  else
    m ++ [(k, v)]

/-- The fields of the invocation event used by cfnresponse. -/
structure CfnEvent where
  responseURL : String
  stackId : String
  requestId : String
  logicalResourceId : String
deriving DecidableEq, Repr

/-- The execution context: exposes the log stream name. -/
structure CfnContext where
  logStreamName : String
deriving DecidableEq, Repr

/-- The JSON envelope built by cfnresponse before serialisation. -/
structure ResponseBody where
  status : String
  reason : String
  physicalResourceId : String
  stackId : String
  requestId : String
  logicalResourceId : String
  noEcho : Bool
  data : List (String × Nat)
deriving DecidableEq, Repr

/-- A Python exception escaping a modelled function. -/
inductive PyErr where
  /-- IndexError, e.g. detector_ids.DetectorIds with an empty list. -/
  | indexError
  /-- Any provider-side error raised by a boundary call. -/
  | apiError
  /-- The except ClientError clause evaluates the roster loop variable
  account, which is unbound when the roster loop never ran. -/
  | nameError
  /-- The except ClientError clause builds the dict display with the
  account dict as its key; a dict is unhashable, so the display raises
  TypeError before anything is recorded. -/
  | typeError
deriving DecidableEq, Repr

/-- Outcome of the create_members boundary call: the UnprocessedAccounts
list on success, a ClientError (caught by enable_gd_member), or any other
exception (which propagates). -/
inductive CMOutcome where
  | ok (unprocessed : List String)
  | clientError (msg : String)
  | otherError
deriving DecidableEq, Repr

/-- Outcome of the update_organization_configuration boundary call. -/
inductive UOOutcome where
  | ok
  | clientError (msg : String)
  | otherError
deriving DecidableEq, Repr

/-- A boundary call made by the handler, recorded in order. -/
inductive Event where
  | assumeRole (account : String) (role : String)
  | describeTrails
  | createBucket (bucket : String) (locationConstraint : Option String)
  | describeKey (region : String) (keyAlias : String)
  | createKey (region : String)
  | createAlias (region : String) (keyAlias : String)
  | putBucketPolicy (bucket : String) (kmsKeyArn : String)
  | putBucketEncryption (bucket : String) (algorithm : String)
  | enableMaster (region : String) (adminAccount : String)
  | listDetectors (region : String)
  | createPubDest (region : String) (detectorId : String)
      (destinationType : String) (props : DestProps)
  | listAccounts (region : String)
  | createMembers (region : String) (details : List AccountDetail)
  | updateOrgConfig (region : String) (detectorId : String)
      (autoEnable : Bool)
  | cfnPut (body : ResponseBody)
deriving DecidableEq, Repr

/-- The outcomes of every boundary call the provider would return during
one invocation, plus the configuration read from the environment. -/
structure Env where
  /-- session.get_available_regions for guardduty. -/
  regions : List String
  /-- Environment variable gd_master_account. -/
  masterAccount : String
  /-- Environment variable role_to_assume. -/
  roleToAssume : String
  /-- assume_role into the master account. -/
  assumeMaster : Except Unit Unit
  /-- cloudtrail describe_trails for the fixed trail name. -/
  describeTrails : Except Unit Trail
  /-- assume_role into the bucket-owning log account. -/
  assumeLogAccount : Except Unit Unit
  /-- s3 create_bucket for the derived bucket. -/
  createBucket : Except Unit Unit
  /-- kms describe_key by the fixed alias; ok carries the existing key
  ARN. -/
  describeKey : Except Unit String
  /-- kms create_key; ok carries the new key ARN. -/
  createKey : Except Unit String
  /-- kms create_alias for the new key. -/
  createAlias : Except Unit Unit
  /-- s3 put_bucket_policy. -/
  putBucketPolicy : Except Unit Unit
  /-- s3 put_bucket_encryption. -/
  putBucketEncryption : Except Unit Unit
  /-- guardduty enable_organization_admin_account, per region. -/
  enableMaster : String → Except Unit Unit
  /-- guardduty disable_organization_admin_account, per region. -/
  disableMaster : String → Except Unit Unit
  /-- guardduty list_detectors, per region; ok carries DetectorIds. -/
  listDetectors : String → Except Unit (List String)
  /-- guardduty create_publishing_destination, per region. -/
  createPubDest : String → Except Unit Unit
  /-- organizations list_accounts, made per region from the member
  enroller; ok carries the Accounts list. -/
  listAccounts : String → Except Unit (List Account)
  /-- guardduty create_members, per region. -/
  createMembers : String → CMOutcome
  /-- guardduty update_organization_configuration, per region. -/
  updateOrg : String → UOOutcome

/-- The two process-lifetime accumulators: failed_regions and
failed_members. -/
structure HState where
  failed_regions : List String
  failed_members : FMap
deriving DecidableEq, Repr

/-- The roster built by the account loop of enable_gd_member: one
AccountId/Email pair per organization account whose Id differs from the
configured master account. -/
def memberDetails (accounts : List Account) (masterAccount : String) :
    List AccountDetail :=
  (accounts.filter (fun a => a.id != masterAccount)).map
    (fun a => { accountId := a.id, email := a.email })

/-- enable_gd_master: calls enable_organization_admin_account for the
region; any exception is swallowed (logged as already enabled), so the
call always returns normally and the trace is the single call either
way. -/
def enable_gd_master (env : Env) (region : String) : List Event :=
  match env.enableMaster region with
  | .ok _ => [Event.enableMaster region env.masterAccount]
  | .error _ => [Event.enableMaster region env.masterAccount]

/-- disable_gd_master (testing helper, not called by the handler): on
failure it appends the region to failed_regions and swallows the
exception. -/
def disable_gd_master (env : Env) (region : String)
    (failed_regions : List String) : List Event × List String :=
  match env.disableMaster region with
  | .ok _ => ([Event.enableMaster region env.masterAccount], failed_regions)
  | .error _ =>
      ([Event.enableMaster region env.masterAccount], failed_regions ++ [region])

/-- enable_gd_member: per-region member enrollment.  Returns the trace of
boundary calls, the updated failed_members dict, and either a normal
return or the exception escaping the function.  Mirrors the source line
by line: only the list_detectors call and the create_members /
update_organization_configuration pair sit inside try blocks, the latter
catching ClientError only; indexing an empty DetectorIds list raises
IndexError; the except ClientError clause builds the dict display with
the account loop variable — a dict — as its key, which raises NameError
when the roster loop never bound the variable and otherwise TypeError
(a dict is unhashable), so that clause always re-raises and never
records anything; the final dict update, reached only on the
unprocessed-accounts path, uses the keyword argument region, i.e. the
literal key "region". -/
def enable_gd_member (env : Env) (region : String) (properties : DestProps)
    (fm : FMap) : List Event × FMap × Except PyErr Unit :=
  match env.listDetectors region with
  | .error _ => ([Event.listDetectors region], fm, .ok ())
  | .ok detectorIds =>
    match detectorIds with
    | [] => ([Event.listDetectors region], fm, .error .indexError)
    | detector_id :: _ =>
      match env.createPubDest region with
      | .error _ =>
          ([Event.listDetectors region,
            Event.createPubDest region detector_id "S3" properties],
           fm, .error .apiError)
      | .ok _ =>
        match env.listAccounts region with
        | .error _ =>
            ([Event.listDetectors region,
              Event.createPubDest region detector_id "S3" properties,
              Event.listAccounts region],
             fm, .error .apiError)
        | .ok accounts =>
          let details := memberDetails accounts env.masterAccount
          let t0 := [Event.listDetectors region,
                     Event.createPubDest region detector_id "S3" properties,
                     Event.listAccounts region,
                     Event.createMembers region details]
          match env.createMembers region with
          | .otherError => (t0, fm, .error .apiError)
          | .clientError _ =>
            match accounts.getLast? with
            | none => (t0, fm, .error .nameError)
            | some _ => (t0, fm, .error .typeError)
          | .ok unprocessedAccounts =>
            let failed1 : List FailedEntry :=
              if unprocessedAccounts.length > 0 then
                [FailedEntry.unprocessed unprocessedAccounts]
              else []
            let t1 := t0 ++ [Event.updateOrgConfig region detector_id true]
            match env.updateOrg region with
            | .otherError => (t1, fm, .error .apiError)
            | .clientError _ =>
              match accounts.getLast? with
              | none => (t1, fm, .error .nameError)
              | some _ => (t1, fm, .error .typeError)
            | .ok =>
              if failed1.length > 0 then
                (t1, fmapUpdate fm "region" failed1, .ok ())
              else (t1, fm, .ok ())

/-- The fixed KMS key alias used by create_kms_key. -/
def guarddutyKeyAlias : String := "alias/controltower/guardduty"

/-- create_kms_key: describe the key by the fixed alias; when that
succeeds, return the existing key ARN without creating anything; when it
fails, create a new key and its alias and return the new ARN.  Failures
of create_key or create_alias escape the function. -/
def create_kms_key (env : Env) (region : String) :
    List Event × Except Unit String :=
  match env.describeKey with
  | .ok arn => ([Event.describeKey region guarddutyKeyAlias], .ok arn)
  | .error _ =>
    match env.createKey with
    | .error _ =>
        ([Event.describeKey region guarddutyKeyAlias,
          Event.createKey region], .error ())
    | .ok newArn =>
      match env.createAlias with
      | .error _ =>
          ([Event.describeKey region guarddutyKeyAlias,
            Event.createKey region,
            Event.createAlias region guarddutyKeyAlias], .error ())
      | .ok _ =>
          ([Event.describeKey region guarddutyKeyAlias,
            Event.createKey region,
            Event.createAlias region guarddutyKeyAlias], .ok newArn)

/-- The ten regions allowed as a LocationConstraint in create_bucket. -/
def allowedRegions : List String :=
  ["eu-west-1", "us-west-1", "us-west-2", "ap-south-1", "ap-southeast-1",
   "ap-southeast-2", "ap-northeast-1", "sa-east-1", "cn-north-1",
   "eu-central-1"]

/-- The try block of create_s3_destination around create_bucket and
create_kms_key: choose the location constraint from the trail home
region, create the bucket, then the key; any exception in the block is
caught, leaving the key ARN as the empty string. -/
def bucketAndKey (env : Env) (bucket_name bucket_region : String) :
    List Event × String :=
  if bucket_region ∈ allowedRegions then
    match env.createBucket with
    | .error _ => ([Event.createBucket bucket_name (some bucket_region)], "")
    | .ok _ =>
      let kres := create_kms_key env bucket_region
      (Event.createBucket bucket_name (some bucket_region) :: kres.1,
       match kres.2 with | .ok arn => arn | .error _ => "")
  else if pyStartsWith bucket_region "eu" then
    match env.createBucket with
    | .error _ => ([Event.createBucket bucket_name (some "EU")], "")
    | .ok _ =>
      let kres := create_kms_key env bucket_region
      (Event.createBucket bucket_name (some "EU") :: kres.1,
       match kres.2 with | .ok arn => arn | .error _ => "")
  else
    match env.createBucket with
    | .error _ => ([Event.createBucket bucket_name none], "")
    | .ok _ =>
      let kres := create_kms_key env "us-east-1"
      (Event.createBucket bucket_name none :: kres.1,
       match kres.2 with | .ok arn => arn | .error _ => "")

/-- create_s3_destination: describe the fixed audit trail, derive the
destination bucket name by replacing logs with guardduty, parse the
bucket-owning account as the 4th hyphen-delimited segment, assume a
session there, create bucket and key (best effort), then apply bucket
policy and default encryption (failures of these two escape), and return
the destination properties. -/
def create_s3_destination (env : Env) : List Event × Except PyErr DestProps :=
  match env.describeTrails with
  | .error _ => ([Event.describeTrails], .error .apiError)
  | .ok trail =>
    let trail_bucket_name := trail.s3BucketName
    let bucket_name := pyReplace trail_bucket_name "logs" "guardduty"
    let bucket_region := trail.homeRegion
    match (pySplitChar trail_bucket_name '-')[3]? with
    | none => ([Event.describeTrails], .error .indexError)
    | some bucket_account =>
      match env.assumeLogAccount with
      | .error _ =>
          ([Event.describeTrails,
            Event.assumeRole bucket_account env.roleToAssume],
           .error .apiError)
      | .ok _ =>
        let t0 := [Event.describeTrails,
                   Event.assumeRole bucket_account env.roleToAssume]
        let bk := bucketAndKey env bucket_name bucket_region
        let kms_key_arn := bk.2
        match env.putBucketPolicy with
        | .error _ =>
            (t0 ++ bk.1 ++ [Event.putBucketPolicy bucket_name kms_key_arn],
             .error .apiError)
        | .ok _ =>
          match env.putBucketEncryption with
          | .error _ =>
              (t0 ++ bk.1 ++
                 [Event.putBucketPolicy bucket_name kms_key_arn,
                  Event.putBucketEncryption bucket_name "AES256"],
               .error .apiError)
          | .ok _ =>
              (t0 ++ bk.1 ++
                 [Event.putBucketPolicy bucket_name kms_key_arn,
                  Event.putBucketEncryption bucket_name "AES256"],
               .ok { destinationArn := "arn:aws:s3:::" ++ bucket_name,
                     kmsKeyArn := kms_key_arn })

/-- The JSON envelope of cfnresponse as built before serialisation.
Mirrors the source line by line: PhysicalResourceId defaults through the
Python or operator, so both None and the empty string fall back to the
log stream name. -/
def buildResponseBody (event : CfnEvent) (context : CfnContext)
    (responseStatus : String) (responseData : List (String × Nat))
    (physicalResourceId : Option String) (noEcho : Bool) : ResponseBody :=
  let ls := context.logStreamName
  { status := responseStatus
    reason := "See the details in CloudWatch Log Stream: " ++ ls
    physicalResourceId :=
      match physicalResourceId with
      | none => ls
      | some s => if s = "" then ls else s
    stackId := event.stackId
    requestId := event.requestId
    logicalResourceId := event.logicalResourceId
    noEcho := noEcho
    data := responseData }

/-- The JSON values appearing on the wire of the callback PUT. -/
inductive JVal where
  | jstr (s : String)
  | jbool (b : Bool)
  | jnum (n : Nat)
  | jobj (fields : List (String × JVal))

/-- Wire encoding of the callback envelope: the JSON object produced by
json.dumps of the responseBody dict, field for field. -/
def encodeResponseBody (b : ResponseBody) : JVal :=
  JVal.jobj
    [("Status", JVal.jstr b.status),
     ("Reason", JVal.jstr b.reason),
     ("PhysicalResourceId", JVal.jstr b.physicalResourceId),
     ("StackId", JVal.jstr b.stackId),
     ("RequestId", JVal.jstr b.requestId),
     ("LogicalResourceId", JVal.jstr b.logicalResourceId),
     ("NoEcho", JVal.jbool b.noEcho),
     ("Data", JVal.jobj (b.data.map (fun p => (p.1, JVal.jnum p.2))))]

/-- First binding of a key in a JSON object. -/
def jLookup (fields : List (String × JVal)) (k : String) : Option JVal :=
  match fields with
  | [] => none
  | (k2, v) :: rest => if k2 = k then some v else jLookup rest k

/-- Expect a JSON string. -/
def jAsStr : Option JVal → Option String
  | some (JVal.jstr s) => some s
  | _ => none

/-- Expect a JSON boolean. -/
def jAsBool : Option JVal → Option Bool
  | some (JVal.jbool b) => some b
  | _ => none

/-- Decode the fields of the Data object: every value must be a JSON
number. -/
def decodeDataFields : List (String × JVal) → Option (List (String × Nat))
  | [] => some []
  | (k, JVal.jnum n) :: rest =>
    match decodeDataFields rest with
    | some l => some ((k, n) :: l)
    | none => none
  | _ => none

/-- Expect the Data object. -/
def jAsData : Option JVal → Option (List (String × Nat))
  | some (JVal.jobj fs) => decodeDataFields fs
  | _ => none

/-- Wire decoding of the callback envelope. -/
def decodeResponseBody (j : JVal) : Option ResponseBody :=
  match j with
  | JVal.jobj fields => do
    let st ← jAsStr (jLookup fields "Status")
    let re ← jAsStr (jLookup fields "Reason")
    let pid ← jAsStr (jLookup fields "PhysicalResourceId")
    let sid ← jAsStr (jLookup fields "StackId")
    let rid ← jAsStr (jLookup fields "RequestId")
    let lid ← jAsStr (jLookup fields "LogicalResourceId")
    let ne ← jAsBool (jLookup fields "NoEcho")
    let d ← jAsData (jLookup fields "Data")
    pure { status := st, reason := re, physicalResourceId := pid,
           stackId := sid, requestId := rid, logicalResourceId := lid,
           noEcho := ne, data := d }
  | _ => none

/-- cfnresponse: build the envelope and PUT it to the response URL; the
transport outcome is caught and logged, so the function always returns
after the single PUT attempt. -/
def cfnresponse (event : CfnEvent) (context : CfnContext)
    (responseStatus : String) (responseData : List (String × Nat))
    (physicalResourceId : Option String) (noEcho : Bool) : List Event :=
  [Event.cfnPut
    (buildResponseBody event context responseStatus responseData
      physicalResourceId noEcho)]

/-- The region loop of the handler: per region, enable the master then
enroll members; the surrounding try catches every exception of the body
and continues with the next region, keeping the failed_members state the
body produced. -/
def regionLoop (env : Env) (properties : DestProps) :
    List String → FMap → List Event × FMap
  | [], fm => ([], fm)
  | r :: rs, fm =>
    let mt := enable_gd_master env r
    let res := enable_gd_member env r properties fm
    let rest := regionLoop env properties rs res.2.1
    (mt ++ res.1 ++ rest.1, rest.2)

/-- handler: enumerate regions, assume the master session, provision the
destination once, run the region loop with per-region error isolation,
then report SUCCESS with Data 120 through cfnresponse.  Failures of
assume_role or create_s3_destination escape before the loop; once the
loop starts, the invocation always reaches the callback. -/
def handler (env : Env) (event : CfnEvent) (context : CfnContext)
    (g0 : HState) : List Event × Except PyErr HState :=
  match env.assumeMaster with
  | .error _ =>
      ([Event.assumeRole env.masterAccount env.roleToAssume],
       .error .apiError)
  | .ok _ =>
    let t0 := [Event.assumeRole env.masterAccount env.roleToAssume]
    let dres := create_s3_destination env
    match dres.2 with
    | .error e => (t0 ++ dres.1, .error e)
    | .ok props =>
      let lres := regionLoop env props env.regions g0.failed_members
      let ct := cfnresponse event context "SUCCESS" [("Data", 120)] none false
      (t0 ++ dres.1 ++ lres.1 ++ ct,
       .ok { failed_regions := g0.failed_regions,
             failed_members := lres.2 })

/-- Recognises the callback PUT event. -/
def Event.isCfnPut : Event → Bool
  | .cfnPut _ => true
  | _ => false

/-- Recognises the enable_organization_admin_account event. -/
def Event.isEnableMaster : Event → Bool
  | .enableMaster _ _ => true
  | _ => false

/-- Recognises the create_bucket event. -/
def Event.isCreateBucket : Event → Bool
  | .createBucket _ _ => true
  | _ => false

/-- Recognises the kms create_key event. -/
def Event.isCreateKey : Event → Bool
  | .createKey _ => true
  | _ => false

/-- Recognises the create_publishing_destination event. -/
def Event.isCreatePubDest : Event → Bool
  | .createPubDest _ _ _ _ => true
  | _ => false

/-- Recognises the create_members event. -/
def Event.isCreateMembers : Event → Bool
  | .createMembers _ _ => true
  | _ => false

theorem enable_gd_master_trace (env : Env) (r : String) :
    enable_gd_master env r = [Event.enableMaster r env.masterAccount] := by
  unfold enable_gd_master
  split <;> rfl

theorem enable_gd_member_filter_cfn (env : Env) (r : String)
    (props : DestProps) (fm : FMap) :
    (enable_gd_member env r props fm).1.filter Event.isCfnPut = [] := by
  unfold enable_gd_member
  repeat' split
  all_goals simp [List.filter, Event.isCfnPut]

theorem enable_gd_member_filter_master (env : Env) (r : String)
    (props : DestProps) (fm : FMap) :
    (enable_gd_member env r props fm).1.filter Event.isEnableMaster = [] := by
  unfold enable_gd_member
  repeat' split
  all_goals simp [List.filter, Event.isEnableMaster]

theorem create_kms_key_filter_cfn (env : Env) (r : String) :
    (create_kms_key env r).1.filter Event.isCfnPut = [] := by
  unfold create_kms_key
  repeat' split
  all_goals simp [List.filter, Event.isCfnPut]

theorem create_kms_key_filter_master (env : Env) (r : String) :
    (create_kms_key env r).1.filter Event.isEnableMaster = [] := by
  unfold create_kms_key
  repeat' split
  all_goals simp [List.filter, Event.isEnableMaster]

theorem bucketAndKey_filter_cfn (env : Env) (bn br : String) :
    (bucketAndKey env bn br).1.filter Event.isCfnPut = [] := by
  unfold bucketAndKey
  repeat' split
  all_goals
    simp [List.filter, Event.isCfnPut, List.filter_append,
      create_kms_key_filter_cfn]

theorem bucketAndKey_filter_master (env : Env) (bn br : String) :
    (bucketAndKey env bn br).1.filter Event.isEnableMaster = [] := by
  unfold bucketAndKey
  repeat' split
  all_goals
    simp [List.filter, Event.isEnableMaster, List.filter_append,
      create_kms_key_filter_master]

theorem create_s3_destination_filter_cfn (env : Env) :
    (create_s3_destination env).1.filter Event.isCfnPut = [] := by
  cases h1 : env.describeTrails with
  | error u =>
    simp [create_s3_destination, h1, List.filter, Event.isCfnPut]
  | ok trail =>
    cases h2 : (pySplitChar trail.s3BucketName '-')[3]? with
    | none =>
      simp [create_s3_destination, h1, h2, List.filter, Event.isCfnPut]
    | some acct =>
      cases h3 : env.assumeLogAccount with
      | error u =>
        simp [create_s3_destination, h1, h2, h3, List.filter, Event.isCfnPut]
      | ok u =>
        cases h4 : env.putBucketPolicy with
        | error u =>
          simp [create_s3_destination, h1, h2, h3, h4, List.filter,
            Event.isCfnPut, List.filter_append, bucketAndKey_filter_cfn]
        | ok u =>
          cases h5 : env.putBucketEncryption with
          | error u =>
            simp [create_s3_destination, h1, h2, h3, h4, h5, List.filter,
              Event.isCfnPut, List.filter_append, bucketAndKey_filter_cfn]
          | ok u =>
            simp [create_s3_destination, h1, h2, h3, h4, h5, List.filter,
              Event.isCfnPut, List.filter_append, bucketAndKey_filter_cfn]

theorem create_s3_destination_filter_master (env : Env) :
    (create_s3_destination env).1.filter Event.isEnableMaster = [] := by
  cases h1 : env.describeTrails with
  | error u =>
    simp [create_s3_destination, h1, List.filter, Event.isEnableMaster]
  | ok trail =>
    cases h2 : (pySplitChar trail.s3BucketName '-')[3]? with
    | none =>
      simp [create_s3_destination, h1, h2, List.filter, Event.isEnableMaster]
    | some acct =>
      cases h3 : env.assumeLogAccount with
      | error u =>
        simp [create_s3_destination, h1, h2, h3, List.filter,
          Event.isEnableMaster]
      | ok u =>
        cases h4 : env.putBucketPolicy with
        | error u =>
          simp [create_s3_destination, h1, h2, h3, h4, List.filter,
            Event.isEnableMaster, List.filter_append,
            bucketAndKey_filter_master]
        | ok u =>
          cases h5 : env.putBucketEncryption with
          | error u =>
            simp [create_s3_destination, h1, h2, h3, h4, h5, List.filter,
              Event.isEnableMaster, List.filter_append,
              bucketAndKey_filter_master]
          | ok u =>
            simp [create_s3_destination, h1, h2, h3, h4, h5, List.filter,
              Event.isEnableMaster, List.filter_append,
              bucketAndKey_filter_master]

theorem regionLoop_filter_cfn (env : Env) (props : DestProps)
    (rs : List String) (fm : FMap) :
    (regionLoop env props rs fm).1.filter Event.isCfnPut = [] := by
  induction rs generalizing fm with
  | nil => simp [regionLoop]
  | cons r rest ih =>
    simp [regionLoop, List.filter_append, enable_gd_master_trace,
      enable_gd_member_filter_cfn, ih, List.filter, Event.isCfnPut]

theorem regionLoop_filter_master (env : Env) (props : DestProps)
    (rs : List String) (fm : FMap) :
    (regionLoop env props rs fm).1.filter Event.isEnableMaster
      = rs.map (fun r => Event.enableMaster r env.masterAccount) := by
  induction rs generalizing fm with
  | nil => simp [regionLoop]
  | cons r rest ih =>
    simp [regionLoop, List.filter_append, enable_gd_master_trace,
      enable_gd_member_filter_master, ih, List.filter, Event.isEnableMaster]

/-- The configured master account used by the concrete environments. -/
def acctMaster : Account :=
  { id := "111111111111", email := "master@example.com" }

/-- A sibling organization account used by the concrete environments. -/
def acctMember : Account :=
  { id := "222222222222", email := "member@example.com" }

/-- The audit trail read by the concrete environments. -/
def trailBase : Trail :=
  { s3BucketName := "aws-controltower-logs-123456789012-us-east-1"
    homeRegion := "us-east-1" }

/-- A fully succeeding provider environment, the base for the concrete
test environments. -/
def envBase : Env :=
  { regions := ["us-east-1", "eu-west-1"]
    masterAccount := "111111111111"
    roleToAssume := "AWSControlTowerExecution"
    assumeMaster := .ok ()
    describeTrails := .ok trailBase
    assumeLogAccount := .ok ()
    createBucket := .ok ()
    describeKey := .ok "arn:aws:kms:us-east-1:123456789012:key/k0"
    createKey := .ok "arn:aws:kms:us-east-1:123456789012:key/k1"
    createAlias := .ok ()
    putBucketPolicy := .ok ()
    putBucketEncryption := .ok ()
    enableMaster := fun _ => .ok ()
    disableMaster := fun _ => .ok ()
    listDetectors := fun _ => .ok ["det-1"]
    createPubDest := fun _ => .ok ()
    listAccounts := fun _ => .ok [acctMaster, acctMember]
    createMembers := fun _ => .ok []
    updateOrg := fun _ => .ok }

/-- The invocation event used by the concrete runs. -/
def ev0 : CfnEvent :=
  { responseURL := "https://provisioning.example.com/cb"
    stackId := "stack-1", requestId := "req-1"
    logicalResourceId := "GuardDutyResource" }

/-- The execution context used by the concrete runs. -/
def ctx0 : CfnContext := { logStreamName := "log-stream-7" }

/-- Environment in which member creation raises a non-client error in the
first region: the first region of the loop fails after the master call. -/
def envFail : Env :=
  { envBase with
    createMembers := fun r =>
      if r = "us-east-1" then .otherError else .ok [] }

/-- Claim C1: for every invocation in which the region loop runs to completion
(equivalently, in which the handler returns normally: once the loop
starts it always completes, because its body catches every exception),
the handler performs the callback PUT exactly once, as the last boundary
call, with status SUCCESS and data Data = 120, whatever the per-region
outcomes were. -/
theorem c1_callback_success_once (env : Env) (event : CfnEvent)
    (context : CfnContext) (g0 : HState) (tr : List Event) (st : HState)
    (h : handler env event context g0 = (tr, Except.ok st)) :
    tr.filter Event.isCfnPut
      = [Event.cfnPut (buildResponseBody event context "SUCCESS"
          [("Data", 120)] none false)]
    ∧ tr.getLast? = some (Event.cfnPut (buildResponseBody event context
        "SUCCESS" [("Data", 120)] none false)) := by
  cases ha : env.assumeMaster with
  | error u => simp [handler, ha] at h
  | ok u =>
    cases hd : (create_s3_destination env).2 with
    | error e => simp [handler, ha, hd] at h
    | ok props =>
      simp only [handler, ha, hd] at h
      rw [Prod.ext_iff] at h
      obtain ⟨h1, h2⟩ := h
      subst h1
      constructor
      · simp [List.filter_append, create_s3_destination_filter_cfn,
          regionLoop_filter_cfn, cfnresponse, List.filter, Event.isCfnPut]
      · simp only [cfnresponse]
        exact List.getLast?_concat _

/-- Claim C2: for every region list returned by the region enumeration, the
handler makes the enable-master call exactly once per region, in
sequence; exceptions of the loop body are caught inside the loop, so
every subsequent region is still attempted — the equation holds for
every environment, however many regions fail. -/
theorem c2_master_once_per_region (env : Env) (event : CfnEvent)
    (context : CfnContext) (g0 : HState) (tr : List Event) (st : HState)
    (h : handler env event context g0 = (tr, Except.ok st)) :
    tr.filter Event.isEnableMaster
      = env.regions.map (fun r => Event.enableMaster r env.masterAccount) := by
  cases ha : env.assumeMaster with
  | error u => simp [handler, ha] at h
  | ok u =>
    cases hd : (create_s3_destination env).2 with
    | error e => simp [handler, ha, hd] at h
    | ok props =>
      simp only [handler, ha, hd] at h
      rw [Prod.ext_iff] at h
      obtain ⟨h1, h2⟩ := h
      subst h1
      simp [List.filter_append, create_s3_destination_filter_master,
        regionLoop_filter_master, cfnresponse, List.filter,
        Event.isEnableMaster]

/-- Witness for C1: a concrete run in which the first region fails during
member creation still performs exactly one callback PUT, last, with
status SUCCESS and Data = 120. -/
theorem c1_callback_success_once_witness :
    ((handler envFail ev0 ctx0
        { failed_regions := [], failed_members := [] }).1.filter
        Event.isCfnPut
      = [Event.cfnPut (buildResponseBody ev0 ctx0 "SUCCESS"
          [("Data", 120)] none false)])
    ∧ (handler envFail ev0 ctx0
        { failed_regions := [], failed_members := [] }).1.getLast?
      = some (Event.cfnPut (buildResponseBody ev0 ctx0 "SUCCESS"
          [("Data", 120)] none false)) :=
  c1_callback_success_once envFail ev0 ctx0
    { failed_regions := [], failed_members := [] }
    (handler envFail ev0 ctx0
      { failed_regions := [], failed_members := [] }).1
    { failed_regions := [], failed_members := [] } (by rfl)

/-- Witness for C2: the same concrete run makes the enable-master call
once per enumerated region, in order, despite the member failure of
the first region. -/
theorem c2_master_once_per_region_witness :
    (handler envFail ev0 ctx0
        { failed_regions := [], failed_members := [] }).1.filter
        Event.isEnableMaster
      = envFail.regions.map
          (fun r => Event.enableMaster r envFail.masterAccount) :=
  c2_master_once_per_region envFail ev0 ctx0
    { failed_regions := [], failed_members := [] }
    (handler envFail ev0 ctx0
      { failed_regions := [], failed_members := [] }).1
    { failed_regions := [], failed_members := [] } (by rfl)

/-- The destination properties used by the concrete member-enroller
runs. -/
def props0 : DestProps :=
  { destinationArn :=
      "arn:aws:s3:::aws-controltower-guardduty-123456789012-us-east-1"
    kmsKeyArn := "arn:aws:kms:us-east-1:123456789012:key/k0" }

/-- The roster entry built for the sibling account by the enroller. -/
def detailMember0 : AccountDetail :=
  { accountId := "222222222222", email := "member@example.com" }

/-- Environment whose detector lookup succeeds with an empty detector
list in every region. -/
def envC3 : Env := { envBase with listDetectors := fun _ => .ok [] }

/-- Claim C3 counterexample: when the detector lookup succeeds with an empty
list, the member enroller does not return normally: indexing the empty
DetectorIds list raises an index error that escapes the function (the
surrounding try only covers the lookup itself). -/
theorem c3_counterexample_not_normal_return :
    (enable_gd_member envC3 "us-east-1" props0 []).2.2
        = Except.error PyErr.indexError
    ∧ (enable_gd_member envC3 "us-east-1" props0 []).2.2 ≠ Except.ok () := by
  constructor
  · rfl
  · intro hcontra
    have h : (enable_gd_member envC3 "us-east-1" props0 []).2.2
        = Except.error PyErr.indexError := rfl
    rw [h] at hcontra
    exact Except.noConfusion hcontra

/-- Claim C3 amended: for every region whose detector lookup succeeds with an
empty detector list, the member enroller raises an index error that
escapes it (to be caught by the region loop of the handler); its trace is the
single lookup call — so neither publishing-destination configuration nor
member creation is attempted — and the failure map is unchanged. -/
theorem c3_empty_detectors_raises (env : Env) (region : String)
    (props : DestProps) (fm : FMap)
    (h : env.listDetectors region = Except.ok []) :
    enable_gd_member env region props fm
      = ([Event.listDetectors region], fm, Except.error PyErr.indexError) := by
  unfold enable_gd_member
  rw [h]

/-- Witness for the amended C3 at a concrete environment. -/
theorem c3_empty_detectors_raises_witness :
    enable_gd_member envC3 "us-east-1" props0 []
      = ([Event.listDetectors "us-east-1"], [],
         Except.error PyErr.indexError) :=
  c3_empty_detectors_raises envC3 "us-east-1" props0 [] (by rfl)

/-- Environment whose create_members call raises a client error in every
region. -/
def envC4 : Env :=
  { envBase with createMembers := fun _ => .clientError "AccessDenied" }

/-- Claim C4: at the failing input, the client error thrown while
submitting the roster is caught by the except ClientError clause, but
that clause builds a dict keyed by the account dict — unhashable — so a
type error escapes the enroller (to be caught by the handler region
loop) before anything is recorded: the failure map receives no entry at
all, in particular none keyed by the actual region us-east-1. -/
theorem c4_no_entry_on_client_error :
    enable_gd_member envC4 "us-east-1" props0 []
      = ([Event.listDetectors "us-east-1",
          Event.createPubDest "us-east-1" "det-1" "S3" props0,
          Event.listAccounts "us-east-1",
          Event.createMembers "us-east-1" [detailMember0]],
         [], Except.error PyErr.typeError) := by
  rfl

/-- Environment in which enabling the master fails in every region and
the member path is skipped via a failing detector lookup. -/
def envC6 : Env :=
  { envBase with
    enableMaster := fun _ => .error ()
    listDetectors := fun _ => .error () }

/-- Claim C6 counterexample: a run in which master enablement fails for
us-east-1 (the enable call is made and its outcome is an error) still
ends with an empty failed-regions collection: no entry is ever appended
for the failed region. -/
theorem c6_counterexample_no_entry_appended :
    envC6.enableMaster "us-east-1" = Except.error ()
    ∧ Event.enableMaster "us-east-1" "111111111111"
        ∈ (handler envC6 ev0 ctx0
            { failed_regions := [], failed_members := [] }).1
    ∧ (handler envC6 ev0 ctx0
          { failed_regions := [], failed_members := [] }).2
        = Except.ok { failed_regions := [], failed_members := [] } := by
  refine ⟨rfl, ?_, rfl⟩
  decide

/-- Claim C6 amended: the handler never appends to the failed-regions
collection: whatever the per-region master-enablement outcomes, the
collection at the end of a completed run equals the collection the run
started with (master-enablement failures are only logged; the only
append to failed_regions in the module sits in disable_gd_master, which
the handler does not call). -/
theorem c6_failed_regions_never_appended (env : Env) (event : CfnEvent)
    (context : CfnContext) (g0 : HState) (tr : List Event) (st : HState)
    (h : handler env event context g0 = (tr, Except.ok st)) :
    st.failed_regions = g0.failed_regions := by
  cases ha : env.assumeMaster with
  | error u => simp [handler, ha] at h
  | ok u =>
    cases hd : (create_s3_destination env).2 with
    | error e => simp [handler, ha, hd] at h
    | ok props =>
      simp only [handler, ha, hd] at h
      rw [Prod.ext_iff] at h
      obtain ⟨h1, h2⟩ := h
      simp only [] at h2
      injection h2 with h3
      rw [← h3]

/-- Witness for the amended C6: a run seeded with a sentinel
failed-regions collection ends with that same collection although master
enablement failed in both regions. -/
theorem c6_failed_regions_never_appended_witness :
    (handler envC6 ev0 ctx0
        { failed_regions := ["seed"], failed_members := [] }).2
      = Except.ok { failed_regions := ["seed"], failed_members := [] }
    ∧ ({ failed_regions := ["seed"], failed_members := [] } : HState).failed_regions
      = ({ failed_regions := ["seed"], failed_members := [] } : HState).failed_regions :=
  ⟨rfl,
   c6_failed_regions_never_appended envC6 ev0 ctx0
     { failed_regions := ["seed"], failed_members := [] }
     (handler envC6 ev0 ctx0
       { failed_regions := ["seed"], failed_members := [] }).1
     { failed_regions := ["seed"], failed_members := [] } (by rfl)⟩

theorem member_createMembers_details (env : Env) (region : String)
    (props : DestProps) (fm : FMap) (accounts : List Account)
    (details : List AccountDetail)
    (hacc : env.listAccounts region = Except.ok accounts)
    (hmem : Event.createMembers region details
      ∈ (enable_gd_member env region props fm).1) :
    details = memberDetails accounts env.masterAccount := by
  unfold enable_gd_member at hmem
  repeat' split at hmem
  all_goals simp_all

theorem length_filter_not_countP (p : Account → Bool) (l : List Account) :
    (l.filter (fun a => !p a)).length = l.length - l.countP p := by
  induction l with
  | nil => rfl
  | cons x xs ih =>
    have hle : xs.countP p ≤ xs.length := List.countP_le_length p
    by_cases h : p x <;> simp [List.filter_cons, List.countP_cons, h, ih]
    all_goals omega

/-- Claim C7: whenever the organization listing returns N accounts of which
exactly one carries the configured master account id, the roster the
enroller submits to create_members has exactly N - 1 entries and none of
them is the master account. -/
theorem c7_roster_excludes_master (env : Env) (region : String)
    (props : DestProps) (fm : FMap) (accounts : List Account)
    (details : List AccountDetail)
    (hacc : env.listAccounts region = Except.ok accounts)
    (hone : accounts.countP (fun a => a.id == env.masterAccount) = 1)
    (hmem : Event.createMembers region details
      ∈ (enable_gd_member env region props fm).1) :
    details.length = accounts.length - 1
    ∧ ∀ d ∈ details, d.accountId ≠ env.masterAccount := by
  have hd := member_createMembers_details env region props fm accounts
    details hacc hmem
  subst hd
  constructor
  · have h := length_filter_not_countP
      (fun a => a.id == env.masterAccount) accounts
    simp only [memberDetails, List.length_map, bne]
    rw [h, hone]
  · intro d hdm
    simp only [memberDetails, List.mem_map, List.mem_filter] at hdm
    obtain ⟨a, ⟨hmem2, hne⟩, rfl⟩ := hdm
    simpa using hne

/-- Witness for C7: two accounts, one of them the master, yield a
one-entry roster not containing the master. -/
theorem c7_roster_excludes_master_witness :
    ([detailMember0].length = [acctMaster, acctMember].length - 1)
    ∧ ∀ d ∈ [detailMember0], d.accountId ≠ envBase.masterAccount :=
  c7_roster_excludes_master envBase "us-east-1" props0 []
    [acctMaster, acctMember] [detailMember0]
    (by rfl) (by decide) (by decide)

theorem bucketAndKey_existing_key (env : Env) (bn br arn : String)
    (hkey : env.describeKey = Except.ok arn)
    (hbucket : env.createBucket = Except.ok ()) :
    (bucketAndKey env bn br).2 = arn
    ∧ ∀ r, Event.createKey r ∉ (bucketAndKey env bn br).1 := by
  unfold bucketAndKey create_kms_key
  rw [hkey, hbucket]
  repeat' split
  all_goals simp_all

/-- Claim C5: when describing the key by the fixed alias succeeds (and bucket
creation did not fail beforehand, so the lookup is actually reached), no
key creation call is made and the returned destination properties carry
the existing key ARN verbatim. -/
theorem c5_existing_key_reused (env : Env) (arn : String) (tr : List Event)
    (props : DestProps)
    (hkey : env.describeKey = Except.ok arn)
    (hbucket : env.createBucket = Except.ok ())
    (hres : create_s3_destination env = (tr, Except.ok props)) :
    props.kmsKeyArn = arn ∧ ∀ r, Event.createKey r ∉ tr := by
  cases h1 : env.describeTrails with
  | error u => simp [create_s3_destination, h1] at hres
  | ok trail =>
    cases h2 : (pySplitChar trail.s3BucketName '-')[3]? with
    | none => simp [create_s3_destination, h1, h2] at hres
    | some acct =>
      cases h3 : env.assumeLogAccount with
      | error u => simp [create_s3_destination, h1, h2, h3] at hres
      | ok u =>
        cases h4 : env.putBucketPolicy with
        | error u => simp [create_s3_destination, h1, h2, h3, h4] at hres
        | ok u =>
          cases h5 : env.putBucketEncryption with
          | error u =>
            simp [create_s3_destination, h1, h2, h3, h4, h5] at hres
          | ok u =>
            have hbk := bucketAndKey_existing_key env
              (pyReplace trail.s3BucketName "logs" "guardduty")
              trail.homeRegion arn hkey hbucket
            simp only [create_s3_destination, h1, h2, h3, h4, h5] at hres
            rw [Prod.ext_iff] at hres
            obtain ⟨htr, hp⟩ := hres
            simp only [] at htr hp
            injection hp with hp2
            constructor
            · rw [← hp2]
              simpa using hbk.1
            · intro r hcontra
              rw [← htr] at hcontra
              simp [hbk.2 r] at hcontra

/-- Witness for C5: the key lookup of the base environment succeeds, and the
returned properties carry its ARN with no key-creation call in the
trace. -/
theorem c5_existing_key_reused_witness :
    (create_s3_destination envBase).2 = Except.ok props0
    ∧ props0.kmsKeyArn = "arn:aws:kms:us-east-1:123456789012:key/k0"
    ∧ ∀ r, Event.createKey r ∉ (create_s3_destination envBase).1 := by
  refine ⟨by rfl, ?_, ?_⟩
  · exact (c5_existing_key_reused envBase
      "arn:aws:kms:us-east-1:123456789012:key/k0"
      (create_s3_destination envBase).1 props0 (by rfl) (by rfl) (by rfl)).1
  · exact (c5_existing_key_reused envBase
      "arn:aws:kms:us-east-1:123456789012:key/k0"
      (create_s3_destination envBase).1 props0 (by rfl) (by rfl) (by rfl)).2

/-- Claim C8: the destination bucket name the provisioner uses is the literal
replacement of logs by guardduty in the trail bucket name — visible in
the returned DestinationArn — and on the concrete Control Tower bucket
name the replacement yields the expected guardduty bucket name. -/
theorem c8_bucket_name_replacement (env : Env) (trail : Trail)
    (tr : List Event) (props : DestProps)
    (htrail : env.describeTrails = Except.ok trail)
    (hres : create_s3_destination env = (tr, Except.ok props)) :
    props.destinationArn
      = "arn:aws:s3:::" ++ pyReplace trail.s3BucketName "logs" "guardduty"
    ∧ pyReplace "aws-controltower-logs-123456789012-us-east-1" "logs"
        "guardduty" = "aws-controltower-guardduty-123456789012-us-east-1" := by
  refine ⟨?_, by rfl⟩
  cases h2 : (pySplitChar trail.s3BucketName '-')[3]? with
  | none => simp [create_s3_destination, htrail, h2] at hres
  | some acct =>
    cases h3 : env.assumeLogAccount with
    | error u => simp [create_s3_destination, htrail, h2, h3] at hres
    | ok u =>
      cases h4 : env.putBucketPolicy with
      | error u => simp [create_s3_destination, htrail, h2, h3, h4] at hres
      | ok u =>
        cases h5 : env.putBucketEncryption with
        | error u =>
          simp [create_s3_destination, htrail, h2, h3, h4, h5] at hres
        | ok u =>
          simp only [create_s3_destination, htrail, h2, h3, h4, h5] at hres
          rw [Prod.ext_iff] at hres
          obtain ⟨htr, hp⟩ := hres
          simp only [] at hp
          injection hp with hp2
          rw [← hp2]

/-- Witness for C8 at the concrete base environment. -/
theorem c8_bucket_name_replacement_witness :
    props0.destinationArn
      = "arn:aws:s3:::"
          ++ pyReplace trailBase.s3BucketName "logs" "guardduty"
    ∧ pyReplace "aws-controltower-logs-123456789012-us-east-1" "logs"
        "guardduty" = "aws-controltower-guardduty-123456789012-us-east-1" :=
  c8_bucket_name_replacement envBase trailBase
    (create_s3_destination envBase).1 props0 (by rfl) (by rfl)

theorem create_kms_key_filter_createBucket (env : Env) (r : String) :
    (create_kms_key env r).1.filter Event.isCreateBucket = [] := by
  unfold create_kms_key
  repeat' split
  all_goals simp [List.filter, Event.isCreateBucket]

theorem bucketAndKey_filter_createBucket (env : Env) (bn br : String) :
    (bucketAndKey env bn br).1.filter Event.isCreateBucket
      = [Event.createBucket bn
          (if br ∈ allowedRegions then some br
           else if pyStartsWith br "eu" then some "EU" else none)] := by
  unfold bucketAndKey
  repeat' split
  all_goals
    simp_all [List.filter, Event.isCreateBucket, List.filter_append,
      create_kms_key_filter_createBucket]

theorem create_s3_destination_filter_createBucket (env : Env)
    (trail : Trail) (acct : String)
    (htrail : env.describeTrails = Except.ok trail)
    (hacct : (pySplitChar trail.s3BucketName '-')[3]? = some acct)
    (hassume : env.assumeLogAccount = Except.ok ()) :
    (create_s3_destination env).1.filter Event.isCreateBucket
      = (bucketAndKey env (pyReplace trail.s3BucketName "logs" "guardduty")
          trail.homeRegion).1.filter Event.isCreateBucket := by
  cases h4 : env.putBucketPolicy with
  | error u =>
    simp [create_s3_destination, htrail, hacct, hassume, h4,
      List.filter_append, List.filter, Event.isCreateBucket]
  | ok u =>
    cases h5 : env.putBucketEncryption with
    | error u =>
      simp [create_s3_destination, htrail, hacct, hassume, h4, h5,
        List.filter_append, List.filter, Event.isCreateBucket]
    | ok u =>
      simp [create_s3_destination, htrail, hacct, hassume, h4, h5,
        List.filter_append, List.filter, Event.isCreateBucket]

/-- Claim C9: the location constraint requested for the destination bucket:
the trail home region itself when it is one of the ten allowed
constraint regions, the special constraint EU when it merely starts with
eu, and no constraint otherwise — the create-bucket call in the trace is
unique and carries exactly that constraint. -/
theorem c9_location_constraint (env : Env) (trail : Trail) (acct : String)
    (htrail : env.describeTrails = Except.ok trail)
    (hacct : (pySplitChar trail.s3BucketName '-')[3]? = some acct)
    (hassume : env.assumeLogAccount = Except.ok ()) :
    (trail.homeRegion ∈ allowedRegions →
      (create_s3_destination env).1.filter Event.isCreateBucket
        = [Event.createBucket
            (pyReplace trail.s3BucketName "logs" "guardduty")
            (some trail.homeRegion)])
    ∧ (trail.homeRegion ∉ allowedRegions →
        pyStartsWith trail.homeRegion "eu" = true →
      (create_s3_destination env).1.filter Event.isCreateBucket
        = [Event.createBucket
            (pyReplace trail.s3BucketName "logs" "guardduty")
            (some "EU")])
    ∧ (trail.homeRegion ∉ allowedRegions →
        pyStartsWith trail.homeRegion "eu" = false →
      (create_s3_destination env).1.filter Event.isCreateBucket
        = [Event.createBucket
            (pyReplace trail.s3BucketName "logs" "guardduty") none]) := by
  have hbase := create_s3_destination_filter_createBucket env trail acct
    htrail hacct hassume
  have hbk := bucketAndKey_filter_createBucket env
    (pyReplace trail.s3BucketName "logs" "guardduty") trail.homeRegion
  refine ⟨fun hin => ?_, fun hnin heu => ?_, fun hnin heu => ?_⟩
  · rw [hbase, hbk]
    simp [hin]
  · rw [hbase, hbk]
    simp [hnin, heu]
  · rw [hbase, hbk]
    simp [hnin, heu]

/-- Witness for C9 at the concrete base environment, whose trail home
region us-east-1 is outside the allowed list and does not start with eu:
no location constraint is requested. -/
theorem c9_location_constraint_witness :
    ("us-east-1" ∉ allowedRegions)
    ∧ pyStartsWith "us-east-1" "eu" = false
    ∧ (create_s3_destination envBase).1.filter Event.isCreateBucket
        = [Event.createBucket
            (pyReplace trailBase.s3BucketName "logs" "guardduty") none] := by
  refine ⟨by decide, by rfl, ?_⟩
  exact (c9_location_constraint envBase trailBase "123456789012"
    (by rfl) (by rfl) (by rfl)).2.2 (by decide) (by rfl)

theorem decodeDataFields_map (l : List (String × Nat)) :
    decodeDataFields (l.map (fun p => (p.1, JVal.jnum p.2))) = some l := by
  induction l with
  | nil => rfl
  | cons p rest ih =>
    obtain ⟨a, b⟩ := p
    simp [decodeDataFields, ih]

/-- Claim C10: encoding the callback envelope to its wire JSON object and
decoding it restores every field (Status, Reason, PhysicalResourceId,
StackId, RequestId, LogicalResourceId, NoEcho, Data); moreover a
not-supplied NoEcho is false and a not-supplied PhysicalResourceId is
the log-stream identifier. -/
theorem c10_callback_roundtrip (event : CfnEvent) (context : CfnContext)
    (status : String) (responseData : List (String × Nat))
    (physicalResourceId : Option String) (noEcho : Bool) :
    decodeResponseBody (encodeResponseBody
        (buildResponseBody event context status responseData
          physicalResourceId noEcho))
      = some (buildResponseBody event context status responseData
          physicalResourceId noEcho)
    ∧ (buildResponseBody event context status responseData none
          false).noEcho = false
    ∧ (buildResponseBody event context status responseData none
          false).physicalResourceId = context.logStreamName := by
  refine ⟨?_, rfl, rfl⟩
  simp [encodeResponseBody, decodeResponseBody, jLookup, jAsStr, jAsBool,
    jAsData, decodeDataFields_map]
